import Mathlib

/-!
Verification development for the quixelart image editor.

The application state (`Easel`), its event handler (`update`, from
`Sandbox::update` in `src/main.rs`) and the render pipeline (`make_img`,
from `Easel::make_img` in `src/main.rs`) are embedded as pure Lean
functions.  The pipeline drives an ImageMagick wand through a fixed
sequence of calls; the wand is modelled at the dimension level
(`Wand := Option Img`), and `make_img` additionally records the sequence
of wand calls it performs (`trace`), the wand contents right after the
downsample call (`downsampled`) and the wand contents handed to the final
blob write (`output`), so that dimension, ordering and skipping
properties can be stated.  Pixel-level primitives that live in the
external ImageMagick library (the levels remap, the k-means loop) are
modelled separately from the spec, over `ℚ`.
-/

namespace Quixel

/-- ImageMagick resampling filter selector.  `src/main.rs` uses exactly
`FilterType_UndefinedFilter` (downsample, line 557) and
`FilterType_PointFilter` (upsample, line 579); `boxFilter` is the area
averaging filter the spec mandates for downsampling. -/
inductive FilterType
  | undefinedFilter
  | pointFilter
  | boxFilter
  deriving DecidableEq

/-- True exactly for the averaging (area/box) resampling filter. -/
def is_averaging : FilterType → Bool
  | .boxFilter => true
  | _ => false

/-- An image, modelled at the dimension level (pixel data is handled by
the separately modelled primitives below). -/
structure Img where
  width : Nat
  height : Nat
  deriving DecidableEq

/-- A MagickWand either holds an image or holds nothing (fresh wand, or
every operation on it failed). -/
abbrev Wand := Option Img

/-- File paths, as their component lists (`PathBuf::pop` drops the last
component). -/
abbrev Path := List String

/-- One call performed on the wand by `make_img`.  Arguments are recorded
as the raw slider values; the source divides the level percentages by
100.0 and passes the k-means tolerance as the literal 0.01 (recorded as
the pair `tolNum`/`tolDen` = 1/100). -/
inductive WandOp
  | readImageOp (path : Path)
  | resizeImageOp (w h : Nat) (filter : FilterType)
  | levelImageOp (black white : Nat)
  | modulateImageOp (brightness saturation hue : Nat)
  | kmeansOp (k maxIters tolNum tolDen : Nat)
  | writeImageBlobOp (fmt : String)
  deriving DecidableEq

/-- True for a levels call. -/
def is_level_op : WandOp → Bool
  | .levelImageOp _ _ => true
  | _ => false

/-- True for a modulate call. -/
def is_modulate_op : WandOp → Bool
  | .modulateImageOp _ _ _ => true
  | _ => false

/-- Modelled from the spec: the image codec is an external collaborator
(spec §1, §6) that "hands the core a decoded pixel buffer"; `decode`
stands for it.  `wand.read_image(path)` loads the decoded image when it
is a valid raster (spec §3: width and height are positive); on any
failure the wand keeps its previous contents and the caller discards the
`Result` (`.ok()`, `src/main.rs:550`). -/
def read_image (decode : Path → Option Img) (path : Path) (w : Wand) : Wand :=
  match decode path with
  | some img => if 1 ≤ img.width ∧ 1 ≤ img.height then some img else w
  | none => w

/-- Width query (`wand.get_image_width()`, 0 when the wand holds no image). -/
def get_image_width : Wand → Nat
  | none => 0
  | some img => img.width

/-- Height query (`wand.get_image_height()`, 0 when the wand holds no image). -/
def get_image_height : Wand → Nat
  | none => 0
  | some img => img.height

/-- Modelled from the spec: the resample primitive (spec §4.1) lives in
the external ImageMagick library; `src/main.rs` only invokes it.  At the
dimension level the resampled image carries the requested target
dimensions; spec §4.1 makes `target_width, target_height ≥ 1` a
precondition, and the caller passes its computed targets through
unmodified, so a degenerate zero target reaches the primitive exactly
as computed (the model records it at the stage boundary without taking
a stance on the library's zero-target behavior).  The filter selects
pixel semantics only.  On an empty wand the call fails and is ignored. -/
def resize_image (w h : Nat) (_filter : FilterType) : Wand → Wand
  | none => none
  | some _ => some ⟨w, h⟩

/-- Modelled from the spec: the levels remap (spec §4.2) is pixel-wise
and dimension-preserving; at the dimension level it is the identity on a
loaded image, and on an empty wand the call fails and the caller discards
the `Result` (`.ok()`, `src/main.rs:565`). -/
def level_image (_black _white : Nat) (w : Wand) : Wand := w

/-- Modelled from the spec: the modulate adjustment (spec §4.2) is
pixel-wise and dimension-preserving; identity at the dimension level
(errors discarded via `.ok()`, `src/main.rs:574`). -/
def modulate_image (_brightness _saturation _hue : Nat) (w : Wand) : Wand := w

/-- Modelled from the spec: k-means quantization (spec §4.3) replaces
pixel colors but keeps dimensions; identity at the dimension level
(errors discarded via `.ok()`, `src/main.rs:577`). -/
def kmeans_image (_k : Nat) (w : Wand) : Wand := w

/-- Modelled from the spec: the PNG encoder is an external codec (spec
§1); encoding succeeds exactly when the wand holds an image, and the
resulting bytes decode back to that image. -/
def write_image_blob (w : Wand) : Option Img := w

/-- The levels stage of the pipeline: `if *level_toggle { wand.level_image(..) }`
(`src/main.rs:559-566`); a literal skip when the toggle is off. -/
def level_stage (toggle : Bool) (black white : Nat) (w : Wand) : Wand :=
  if toggle then level_image black white w else w

/-- The modulate stage of the pipeline: `if *modulate_toggle { wand.modulate_image(..) }`
(`src/main.rs:568-575`); a literal skip when the toggle is off. -/
def modulate_stage (toggle : Bool) (brightness saturation hue : Nat) (w : Wand) : Wand :=
  if toggle then modulate_image brightness saturation hue w else w

/-- Downsample target for one dimension:
`((dim as f64) * ((100.0 - pixelize) / 100.0)).round() as usize`
(`src/main.rs:554-556`).  For `pixelize ≤ 100` the value is nonnegative
and `.round()` (half away from zero) equals `⌊(dim*(100-pixelize) + 50) / 100⌋`;
for `pixelize > 100` the value is negative and the `as usize` cast
saturates to 0.  (The f64 computation agrees with this exact rational
rounding: products sit on multiples of 1/100, at distance 0 or ≥ 1/100
from a rounding boundary, far above the f64 error, and at the exact
half-way points the correctly rounded f64 value is ≥ the true value, so
both round up.) -/
def downDim (dim pixelize : Nat) : Nat :=
  if pixelize ≤ 100 then (dim * (100 - pixelize) + 50) / 100 else 0

/-- UI theme (from `src/style.rs`). -/
inductive Theme
  | dark
  | light
  deriving DecidableEq

/-- Theme toggling (`Theme::swap`). -/
def Theme.swap : Theme → Theme
  | .dark => .light
  | .light => .dark

/-- Window layout (from `src/main.rs`). -/
inductive Layout
  | columns
  | rows
  deriving DecidableEq

/-- Layout toggling (`Layout::swap`). -/
def Layout.swap : Layout → Layout
  | .columns => .rows
  | .rows => .columns

/-- The application state (`struct Easel`, `src/main.rs:36-66`), minus
the pure widget bookkeeping fields (`button::State`, `slider::State`,
`scrollable::State`), which carry no data.  `img_handle = none` models
the initial `ImageHandle::from_memory(vec![])` empty handle. -/
structure Easel where
  theme : Theme
  layout : Layout
  src_path : Option Path
  img_handle : Option Img
  pixelize : Nat
  kcolors : Nat
  level_toggle : Bool
  level_black : Nat
  level_white : Nat
  modulate_toggle : Bool
  modulate_brightness : Nat
  modulate_saturation : Nat
  modulate_hue : Nat
  save_path : Option Path
  save_file : Option Path
  saved : Bool
  deriving DecidableEq

/-- The initial state (`Sandbox::new`, `src/main.rs:111-143`). -/
def Easel.new : Easel where
  theme := .dark
  layout := .columns
  src_path := none
  img_handle := none
  pixelize := 80
  kcolors := 32
  level_toggle := true
  level_black := 10
  level_white := 80
  modulate_toggle := false
  modulate_brightness := 100
  modulate_saturation := 100
  modulate_hue := 100
  save_path := none
  save_file := none
  saved := false

/-- UI events (`enum Event`, `src/main.rs:68-91`). -/
inductive Event
  | sourcePressed
  | layoutPressed
  | themePressed
  | sliderPixelizeChanged (v : Nat)
  | sliderPixelizeReleased
  | sliderKcolorsChanged (v : Nat)
  | sliderKcolorsReleased
  | levelToggled (b : Bool)
  | sliderLevelBlackChanged (v : Nat)
  | sliderLevelBlackReleased
  | sliderLevelWhiteChanged (v : Nat)
  | sliderLevelWhiteReleased
  | modulateToggled (b : Bool)
  | sliderModulateBrightnessChanged (v : Nat)
  | sliderModulateBrightnessReleased
  | sliderModulateSaturationChanged (v : Nat)
  | sliderModulateSaturationReleased
  | sliderModulateHueChanged (v : Nat)
  | sliderModulateHueReleased
  | savePressed
  | saveAsPressed
  deriving DecidableEq

/-- The result of one `make_img` call: the new application state, the
sequence of wand calls performed, the wand contents right after the
downsample resize, and the wand contents handed to `write_image_blob`. -/
structure RenderOut where
  state : Easel
  trace : List WandOp
  downsampled : Wand
  output : Wand
  deriving DecidableEq

/-- The render pipeline `Easel::make_img` (`src/main.rs:526-585`).

Returns immediately when no source path is set.  Otherwise it creates a
fresh wand, reads the source, remembers the source width/height, resizes
down by the pixelize percentage with `UndefinedFilter`, optionally
applies levels and modulate, runs `kmeans(kcolors, 100, 0.01)`, resizes
back up to the remembered width/height with `PointFilter`, and, only if
the blob write succeeds, replaces the image handle and clears the saved
flag.  Every fallible wand call has its `Result` discarded (`.ok()`). -/
def make_img (decode : Path → Option Img) (s : Easel) : RenderOut :=
  match s.src_path with
  | none => ⟨s, [], none, none⟩
  | some src_path =>
    let wand0 : Wand := none
    let wand1 := read_image decode src_path wand0
    let width := get_image_width wand1
    let height := get_image_height wand1
    let width_ds := downDim width s.pixelize
    let height_ds := downDim height s.pixelize
    let wand2 := resize_image width_ds height_ds .undefinedFilter wand1
    let wand3 := level_stage s.level_toggle s.level_black s.level_white wand2
    let wand4 := modulate_stage s.modulate_toggle s.modulate_brightness
      s.modulate_saturation s.modulate_hue wand3
    let wand5 := kmeans_image s.kcolors wand4
    let wand6 := resize_image width height .pointFilter wand5
    let trace : List WandOp :=
      [.readImageOp src_path, .resizeImageOp width_ds height_ds .undefinedFilter]
        ++ (if s.level_toggle then [.levelImageOp s.level_black s.level_white] else [])
        ++ (if s.modulate_toggle then
              [.modulateImageOp s.modulate_brightness s.modulate_saturation s.modulate_hue]
            else [])
        ++ [.kmeansOp s.kcolors 100 1 100,
            .resizeImageOp width height .pointFilter,
            .writeImageBlobOp "png"]
    let state := match write_image_blob wand6 with
      | some img => { s with img_handle := some img, saved := false }
      | none => s
    ⟨state, trace, wand2, wand6⟩

/-- Results of the external file dialogs and of the save-file write,
which are out-of-scope collaborators (spec §1): the file picked by
`rfd::FileDialog::pick_file`, the file picked by `save_file()`, and
whether opening and writing the save file succeeds. -/
structure Dialogs where
  pick_file : Option Path
  save_dialog : Option Path
  write_ok : Bool

/-- The save logic shared by `Event::SavePressed` and `Event::SaveAsPressed`
(`src/main.rs:222-261`): possibly open a save dialog, remember the chosen
file and its directory, then write the handle bytes (the handle always
holds `ImageData::Bytes`) and mark the state saved on success. -/
def do_save (dlg : Dialogs) (is_save_as : Bool) (s : Easel) : Easel :=
  let select_file := (¬ is_save_as ∧ s.save_file = none) ∨ is_save_as
  let s1 :=
    if select_file then
      let save_file := dlg.save_dialog
      let s' := match save_file with
        | some f => { s with save_path := some f.dropLast }
        | none => s
      { s' with save_file := save_file }
    else s
  match s1.save_file with
  | some _ => if dlg.write_ok then { s1 with saved := true } else s1
  | none => s1

/-- The event handler `Sandbox::update` (`src/main.rs:155-263`),
instrumented with a flag recording whether the arm invoked `make_img`. -/
def update (decode : Path → Option Img) (dlg : Dialogs) (evt : Event) (s : Easel) :
    Easel × Bool :=
  match evt with
  | .layoutPressed => ({ s with layout := s.layout.swap }, false)
  | .themePressed => ({ s with theme := s.theme.swap }, false)
  | .sourcePressed =>
    let s1 := { s with src_path := dlg.pick_file }
    let s2 := match dlg.pick_file with
      | some file_path =>
        { s1 with save_path := some file_path.dropLast, save_file := none }
      | none => s1
    ((make_img decode s2).state, true)
  | .sliderPixelizeChanged v => ({ s with pixelize := v }, false)
  | .sliderKcolorsChanged v => ({ s with kcolors := v }, false)
  | .sliderPixelizeReleased => ((make_img decode s).state, true)
  | .sliderKcolorsReleased => ((make_img decode s).state, true)
  | .levelToggled b => ((make_img decode { s with level_toggle := b }).state, true)
  | .sliderLevelBlackChanged v => ({ s with level_black := v }, false)
  | .sliderLevelWhiteChanged v => ({ s with level_white := v }, false)
  | .sliderLevelBlackReleased =>
    if s.level_toggle then ((make_img decode s).state, true) else (s, false)
  | .sliderLevelWhiteReleased =>
    if s.level_toggle then ((make_img decode s).state, true) else (s, false)
  | .modulateToggled b => ((make_img decode { s with modulate_toggle := b }).state, true)
  | .sliderModulateBrightnessChanged v => ({ s with modulate_brightness := v }, false)
  | .sliderModulateSaturationChanged v => ({ s with modulate_saturation := v }, false)
  | .sliderModulateHueChanged v => ({ s with modulate_hue := v }, false)
  | .sliderModulateBrightnessReleased =>
    if s.modulate_toggle then ((make_img decode s).state, true) else (s, false)
  | .sliderModulateSaturationReleased =>
    if s.modulate_toggle then ((make_img decode s).state, true) else (s, false)
  | .sliderModulateHueReleased =>
    if s.modulate_toggle then ((make_img decode s).state, true) else (s, false)
  | .savePressed => (do_save dlg false s, false)
  | .saveAsPressed => (do_save dlg true s, false)

/-- Modelled from the spec: the levels remap (spec §4.2) is implemented
by the external ImageMagick library; `src/main.rs:560-565` only invokes
it.  Per channel: `black = black_pct/100*255`, `white = white_pct/100*255`,
`output = clamp((input - black) / (white - black) * 255, 0, 255)`, and
when `white == black` the output is 255 when `input ≥ black` else 0. -/
def level_channel (black_pct white_pct v : ℚ) : ℚ :=
  let black := black_pct / 100 * 255
  let white := white_pct / 100 * 255
  if white = black then (if black ≤ v then 255 else 0)
  else max 0 (min 255 ((v - black) / (white - black) * 255))

/-- Modelled from the spec: the levels stage applies `level_channel` to
every channel of every pixel of the buffer (spec §4.2). -/
def apply_levels (black_pct white_pct : ℚ) (img : List (List ℚ)) : List (List ℚ) :=
  img.map (List.map (level_channel black_pct white_pct))

/-- A pixel color, on the normalized 0-1 scale used by the k-means
tolerance (spec §4.3): red, green, blue. -/
abbrev Color := ℚ × ℚ × ℚ

/-- Squared Euclidean distance between two colors (alpha excluded per
spec §4.3; comparing squared distances is equivalent to comparing
distances, both being nonnegative). -/
def sq_dist (a b : Color) : ℚ :=
  (a.1 - b.1) ^ 2 + (a.2.1 - b.2.1) ^ 2 + (a.2.2 - b.2.2) ^ 2

/-- Index of the centroid nearest to `p` (first one on ties). -/
def nearest_idx : List Color → Color → Nat
  | [], _ => 0
  | [_], _ => 0
  | c :: c' :: cs, p =>
    let j := nearest_idx (c' :: cs) p
    if sq_dist p c ≤ sq_dist p ((c' :: cs).getD j (0, 0, 0)) then 0 else j + 1

/-- Componentwise color sum (centroid accumulation, spec §3). -/
def add_color (a b : Color) : Color := (a.1 + b.1, a.2.1 + b.2.1, a.2.2 + b.2.2)

/-- Color scaled by a rational. -/
def smul_color (q : ℚ) (a : Color) : Color := (q * a.1, q * a.2.1, q * a.2.2)

/-- Mean of a list of colors (running sum divided by count, spec §3). -/
def mean_color (l : List Color) : Color :=
  smul_color (1 / (l.length : ℚ)) (l.foldr add_color (0, 0, 0))

/-- Squared distance of a pixel to its own (assigned) centroid. -/
def own_dist (cs : List Color) (p : Color) : ℚ :=
  sq_dist p (cs.getD (nearest_idx cs p) (0, 0, 0))

/-- The pixel currently farthest from its own centroid (degenerate
cluster re-seeding, spec §4.3). -/
def farthest_pixel (cs : List Color) : List Color → Color
  | [] => (0, 0, 0)
  | [p] => p
  | p :: p' :: ps =>
    let q := farthest_pixel cs (p' :: ps)
    if own_dist cs q ≤ own_dist cs p then p else q

/-- Modelled from the spec: one k-means iteration (spec §4.3) — assign
every pixel to its nearest centroid by Euclidean distance, recompute
each centroid as the mean of its assigned pixels, and re-seed a centroid
with no assigned pixels to the pixel farthest from its own centroid. -/
def km_step (ps : List Color) (cs : List Color) : List Color :=
  (List.range cs.length).map fun j =>
    let cluster := ps.filter fun p => nearest_idx cs p == j
    if cluster.isEmpty then
      if ps.isEmpty then cs.getD j (0, 0, 0) else farthest_pixel cs ps
    else mean_color cluster

/-- Maximum squared centroid movement across one iteration. -/
def max_move_sq (old new : List Color) : ℚ :=
  ((old.zip new).map fun ab => sq_dist ab.1 ab.2).foldr max 0

/-- Modelled from the spec: the k-means iteration loop (spec §4.3) —
repeat the step until the maximum centroid movement falls below the
convergence tolerance or the fuel (iteration cap) runs out, returning
the final centroids and the number of iterations performed. -/
def km_loop (step : List Color → List Color) (tol_sq : ℚ) :
    Nat → List Color → List Color × Nat
  | 0, cs => (cs, 0)
  | fuel + 1, cs =>
    if max_move_sq cs (step cs) < tol_sq then (step cs, 1)
    else ((km_loop step tol_sq fuel (step cs)).1, (km_loop step tol_sq fuel (step cs)).2 + 1)

/-- Modelled from the spec: deterministic centroid initialization —
evenly spaced samples of the pixel population (spec §4.3). -/
def kmeans_init (k : Nat) (ps : List Color) : List Color :=
  (List.range k).map fun i => ps.getD (i * ps.length / k) (0, 0, 0)

/-- Modelled from the spec: the full k-means run (spec §4.3).  The
iteration cap 100 and tolerance 0.01 (squared here: (1/100)^2) are the
arguments `src/main.rs:577` passes to `wand.kmeans(kcolors, 100, 0.01)`. -/
def kmeans_run (ps : List Color) (k : Nat) : List Color × Nat :=
  km_loop (km_step ps) ((1 / 100) ^ 2) 100 (kmeans_init k ps)

/-- Number of k-means iterations performed. -/
def kmeans_iters (ps : List Color) (k : Nat) : Nat := (kmeans_run ps k).2

/-- Final k-means centroids. -/
def kmeans_centroids (ps : List Color) (k : Nat) : List Color := (kmeans_run ps k).1

/-- Modelled from the spec: quantization output — every pixel replaced
by its final assigned centroid (spec §4.3). -/
def quantize (ps : List Color) (k : Nat) : List Color :=
  let cs := kmeans_centroids ps k
  ps.map fun p => cs.getD (nearest_idx cs p) (0, 0, 0)

/-- Render errors of the spec's orchestrator (spec §7). -/
inductive RenderError
  | invalidImage
  deriving DecidableEq

/-- The spec's parameter set (spec §3), at the granularity the
dimension-level model needs. -/
structure Params where
  pixelize : Nat
  kcolors : Nat
  levels : Option (Nat × Nat)
  modulate : Option (Nat × Nat × Nat)
  deriving DecidableEq

/-- Modelled from the spec, for comparison with the code: the orchestrator
contract at the dimension level — `render` fails with `InvalidImage` on a
zero-size source (spec §7) and otherwise returns an image of exactly the
source dimensions (spec §8, dimension round-trip), as a typed result. -/
def render_spec (src : Img) (_p : Params) : Except RenderError Img :=
  if src.width = 0 ∨ src.height = 0 then .error .invalidImage
  else .ok ⟨src.width, src.height⟩

/-- The pipeline stages of spec §2. -/
inductive Stage
  | downsample
  | levels
  | modulate
  | quantize
  | upsample
  deriving DecidableEq

/-- Pipeline stage performed by a wand call.  The two resampler calls are
distinguished by their filter argument: the downsample resize passes
`UndefinedFilter` (and an area/box resize would also be a downsample),
the upsample resize passes `PointFilter`.  Codec calls (read, blob write)
are not pipeline stages. -/
def stage_of : WandOp → Option Stage
  | .readImageOp _ => none
  | .resizeImageOp _ _ .pointFilter => some .upsample
  | .resizeImageOp _ _ _ => some .downsample
  | .levelImageOp _ _ => some .levels
  | .modulateImageOp _ _ _ => some .modulate
  | .kmeansOp _ _ _ _ => some .quantize
  | .writeImageBlobOp _ => none

/-- A concrete decoder used by witnesses: the path `["img.png"]` decodes
to a 5×7 image, every other path fails to decode. -/
def decodeW : Path → Option Img := fun p => if p = ["img.png"] then some ⟨5, 7⟩ else none

/-- A concrete application state with a selected 5×7 source. -/
def easelW : Easel := { Easel.new with src_path := some ["img.png"] }

/-- A concrete dialog outcome (everything cancelled). -/
def dlgW : Dialogs := ⟨none, none, false⟩

/-- C10: when no source image has been selected (`src_path` is `None`),
invoking a render is a no-op: `make_img` returns immediately, the state
(every field, including the image handle and the saved flag) is
unchanged, no wand call is made, and no output is produced. -/
theorem no_source_render_noop (decode : Path → Option Img) (s : Easel)
    (h : s.src_path = none) : make_img decode s = ⟨s, [], none, none⟩ := by
  unfold make_img
  rw [h]

theorem no_source_render_noop_witness :
    Easel.new.src_path = none ∧
    make_img decodeW Easel.new = ⟨Easel.new, [], none, none⟩ :=
  ⟨rfl, no_source_render_noop decodeW Easel.new rfl⟩

/-- C1: for a source of width `W` and height `H` and any pixelize value
in 0..=99, the pipeline outputs an image of exactly `W×H`, stores it in
the image handle, and the final upsample resize is invoked with the
original dimensions remembered from the source image before
downsampling. -/
theorem dimension_round_trip (decode : Path → Option Img) (s : Easel)
    (path : Path) (img : Img) (hpath : s.src_path = some path)
    (hdec : decode path = some img) (hw : 1 ≤ img.width) (hh : 1 ≤ img.height)
    (_hp : s.pixelize ≤ 99) :
    (make_img decode s).output = some ⟨img.width, img.height⟩ ∧
    (make_img decode s).state.img_handle = some ⟨img.width, img.height⟩ ∧
    WandOp.resizeImageOp img.width img.height FilterType.pointFilter ∈
      (make_img decode s).trace := by
  have hread : read_image decode path none = some img := by
    simp [read_image, hdec, hw, hh]
  unfold make_img
  rw [hpath]
  simp [hread, get_image_width, get_image_height, level_stage, modulate_stage,
    level_image, modulate_image, kmeans_image, resize_image, write_image_blob,
    ite_self]

theorem dimension_round_trip_witness :
    (make_img decodeW easelW).output = some ⟨5, 7⟩ ∧
    (make_img decodeW easelW).state.img_handle = some ⟨5, 7⟩ ∧
    WandOp.resizeImageOp 5 7 FilterType.pointFilter ∈ (make_img decodeW easelW).trace :=
  dimension_round_trip decodeW easelW ["img.png"] ⟨5, 7⟩ rfl (by decide)
    (by decide) (by decide) (by decide)

/-- C3: the pipeline performs its stages in the fixed order downsample,
then levels exactly when the levels toggle is on, then modulate exactly
when the modulate toggle is on, then k-means quantization, then the
upsample back to the source's original dimensions; no stage runs out of
this order. -/
theorem pipeline_stage_order (decode : Path → Option Img) (s : Easel) (path : Path)
    (h : s.src_path = some path) :
    (make_img decode s).trace.filterMap stage_of =
      [Stage.downsample]
        ++ (if s.level_toggle then [Stage.levels] else [])
        ++ (if s.modulate_toggle then [Stage.modulate] else [])
        ++ [Stage.quantize, Stage.upsample] := by
  unfold make_img
  rw [h]
  cases hl : s.level_toggle <;> cases hm : s.modulate_toggle <;>
    simp [stage_of]

theorem pipeline_stage_order_witness :
    (make_img decodeW easelW).trace.filterMap stage_of =
      [Stage.downsample]
        ++ (if easelW.level_toggle then [Stage.levels] else [])
        ++ (if easelW.modulate_toggle then [Stage.modulate] else [])
        ++ [Stage.quantize, Stage.upsample] :=
  pipeline_stage_order decodeW easelW ["img.png"] rfl

/-- A decoder whose every path yields a 1×1 image. -/
def decode5 : Path → Option Img := fun _ => some ⟨1, 1⟩

/-- A concrete state with a 1×1 source and pixelize 99. -/
def easel5 : Easel := { Easel.new with src_path := some ["tiny.png"], pixelize := 99 }

/-- C5 (amended): the computed downsample target is not clamped by the
caller: for every valid source and pixelize value in 0..=99 the
downsample resize is invoked with exactly the raw rounded targets
`downDim width pixelize` and `downDim height pixelize`, even when a
target rounds to 0 — any clamping or rejection of a zero target is left
to the external resampler. -/
theorem downsample_target_unclamped (decode : Path → Option Img) (s : Easel)
    (path : Path) (img : Img) (hpath : s.src_path = some path)
    (hdec : decode path = some img) (hw : 1 ≤ img.width) (hh : 1 ≤ img.height)
    (_hp : s.pixelize ≤ 99) :
    (make_img decode s).trace[1]? =
      some (WandOp.resizeImageOp (downDim img.width s.pixelize)
        (downDim img.height s.pixelize) FilterType.undefinedFilter) := by
  have hread : read_image decode path none = some img := by
    simp [read_image, hdec, hw, hh]
  unfold make_img
  rw [hpath]
  cases s.level_toggle <;> cases s.modulate_toggle <;>
    simp [hread, get_image_width, get_image_height]

/-- C5 counterexample: on a 1×1 source at pixelize 99 the computed
downsample targets round to 0 and main.rs:555-557 passes them to the
resample stage unclamped: the recorded downsample call is
`resize_image(0, 0, UndefinedFilter)`, so the resample stage is invoked
with a zero dimension, refuting the claimed clamp. -/
theorem downsample_zero_target_cex :
    downDim 1 99 = 0 ∧
    (make_img decode5 easel5).trace[1]? =
      some (WandOp.resizeImageOp 0 0 FilterType.undefinedFilter) := by decide

theorem downsample_target_unclamped_witness :
    (make_img decode5 easel5).trace[1]? =
      some (WandOp.resizeImageOp (downDim 1 easel5.pixelize)
        (downDim 1 easel5.pixelize) FilterType.undefinedFilter) :=
  downsample_target_unclamped decode5 easel5 ["tiny.png"] ⟨1, 1⟩ rfl rfl
    (by decide) (by decide) (by decide)

/-- C7: a tone-adjustment stage whose toggle is off is a literal skip:
the stage function returns its wand unchanged (not a no-op transform —
the `else` branch is the input itself), and the trace of a render with
the toggle off contains no corresponding wand call, while with the
toggle on (and a source selected) it contains exactly one. -/
theorem disabled_stage_literal_skip (decode : Path → Option Img) (s : Easel)
    (path : Path) (black white brightness saturation hue : Nat) (w : Wand) :
    level_stage false black white w = w ∧
    modulate_stage false brightness saturation hue w = w ∧
    (make_img decode { s with level_toggle := false }).trace.countP is_level_op = 0 ∧
    (make_img decode { s with modulate_toggle := false }).trace.countP is_modulate_op = 0 ∧
    (make_img decode
        { s with level_toggle := true, src_path := some path }).trace.countP
      is_level_op = 1 ∧
    (make_img decode
        { s with modulate_toggle := true, src_path := some path }).trace.countP
      is_modulate_op = 1 := by
  refine ⟨rfl, rfl, ?_, ?_, ?_, ?_⟩ <;>
    unfold make_img <;>
    cases hsp : s.src_path <;> cases hl : s.level_toggle <;>
      cases hm : s.modulate_toggle <;>
      simp [is_level_op, is_modulate_op, List.countP_append, List.countP_cons]

/-- C2 (amended): the downsample stage invokes the resampler with the
library-default `UndefinedFilter`, which is not the averaging (area/box)
filter. -/
theorem downsample_uses_default_filter (decode : Path → Option Img) (s : Easel)
    (path : Path) (hpath : s.src_path = some path) :
    (∃ w h, (make_img decode s).trace[1]? =
      some (WandOp.resizeImageOp w h FilterType.undefinedFilter)) ∧
    is_averaging FilterType.undefinedFilter = false := by
  unfold make_img
  rw [hpath]
  cases s.level_toggle <;> cases s.modulate_toggle <;> exact ⟨⟨_, _, rfl⟩, rfl⟩

/-- C2 counterexample: on a concrete render, the downsample resize call
(the second wand call, right after the source read) passes
`UndefinedFilter` — an unspecified/library-default sample mode, not the
averaging (area/box) filter the claim states. -/
theorem downsample_not_averaging_cex :
    (make_img decodeW easelW).trace[1]? =
      some (WandOp.resizeImageOp 1 1 FilterType.undefinedFilter) ∧
    is_averaging FilterType.undefinedFilter = false := by decide

theorem downsample_uses_default_filter_witness :
    (∃ w h, (make_img decodeW easelW).trace[1]? =
      some (WandOp.resizeImageOp w h FilterType.undefinedFilter)) ∧
    is_averaging FilterType.undefinedFilter = false :=
  downsample_uses_default_filter decodeW easelW ["img.png"] rfl

/-- C6 (amended): on a zero-size (or undecodable) source image, the
pipeline produces no partial output — the state, including the image
handle and saved flag, is exactly unchanged and nothing reaches the
image handle — and it does not crash (the model is total); but no typed
`InvalidImage` error is surfaced: every failing wand call has its result
discarded, so the render is a silent no-op. -/
theorem zero_size_source_silent (decode : Path → Option Img) (s : Easel)
    (path : Path) (hpath : s.src_path = some path)
    (hbad : decode path = none ∨
      ∃ img, decode path = some img ∧ (img.width = 0 ∨ img.height = 0)) :
    (make_img decode s).state = s ∧ (make_img decode s).output = none := by
  have hread : read_image decode path none = none := by
    rcases hbad with h | ⟨img, hdec, hz⟩
    · simp [read_image, h]
    · rcases hz with hz | hz <;> simp [read_image, hdec, hz]
  unfold make_img
  rw [hpath]
  simp [hread, resize_image, level_stage, modulate_stage, level_image,
    modulate_image, kmeans_image, write_image_blob, ite_self]

/-- A decoder whose every path yields a zero-size image. -/
def decode6 : Path → Option Img := fun _ => some ⟨0, 0⟩

/-- A concrete state pointing at a zero-size source. -/
def easel6 : Easel := { Easel.new with src_path := some ["zero.png"] }

/-- C6 counterexample: the spec's orchestrator maps a zero-size source to
a typed `InvalidImage` error, but the code's render on the same source is
a silent no-op: the state is bit-for-bit unchanged and `make_img` (return
type `()` in the source) carries no error value at all — no typed result
is surfaced to the caller. -/
theorem invalid_image_not_surfaced_cex :
    render_spec ⟨0, 0⟩ ⟨80, 32, none, none⟩ = Except.error RenderError.invalidImage ∧
    (make_img decode6 easel6).state = easel6 ∧
    (make_img decode6 easel6).output = none :=
  ⟨rfl, rfl, rfl⟩

theorem zero_size_source_silent_witness :
    (make_img decode6 easel6).state = easel6 ∧
    (make_img decode6 easel6).output = none :=
  zero_size_source_silent decode6 easel6 ["zero.png"] rfl
    (Or.inr ⟨⟨0, 0⟩, rfl, Or.inl rfl⟩)

/-- C9 (amended): slider "value changed" events only store the new
parameter value and never render; the pixelize and kcolors "value
released" events always render; releasing a levels slider renders only
when the levels toggle is on, and releasing a modulate slider only when
the modulate toggle is on; toggling the levels or modulate checkbox
stores the new toggle and renders immediately.  The boolean component
records whether the arm invoked `make_img`. -/
theorem slider_trigger_contract (decode : Path → Option Img) (dlg : Dialogs)
    (s : Easel) (v : Nat) (b : Bool) :
    update decode dlg (.sliderPixelizeChanged v) s = ({ s with pixelize := v }, false) ∧
    update decode dlg (.sliderKcolorsChanged v) s = ({ s with kcolors := v }, false) ∧
    update decode dlg (.sliderLevelBlackChanged v) s = ({ s with level_black := v }, false) ∧
    update decode dlg (.sliderLevelWhiteChanged v) s = ({ s with level_white := v }, false) ∧
    update decode dlg (.sliderModulateBrightnessChanged v) s =
      ({ s with modulate_brightness := v }, false) ∧
    update decode dlg (.sliderModulateSaturationChanged v) s =
      ({ s with modulate_saturation := v }, false) ∧
    update decode dlg (.sliderModulateHueChanged v) s =
      ({ s with modulate_hue := v }, false) ∧
    update decode dlg .sliderPixelizeReleased s = ((make_img decode s).state, true) ∧
    update decode dlg .sliderKcolorsReleased s = ((make_img decode s).state, true) ∧
    update decode dlg (.levelToggled b) s =
      ((make_img decode { s with level_toggle := b }).state, true) ∧
    update decode dlg (.modulateToggled b) s =
      ((make_img decode { s with modulate_toggle := b }).state, true) ∧
    update decode dlg .sliderLevelBlackReleased s =
      (if s.level_toggle then ((make_img decode s).state, true) else (s, false)) ∧
    update decode dlg .sliderLevelWhiteReleased s =
      (if s.level_toggle then ((make_img decode s).state, true) else (s, false)) ∧
    update decode dlg .sliderModulateBrightnessReleased s =
      (if s.modulate_toggle then ((make_img decode s).state, true) else (s, false)) ∧
    update decode dlg .sliderModulateSaturationReleased s =
      (if s.modulate_toggle then ((make_img decode s).state, true) else (s, false)) ∧
    update decode dlg .sliderModulateHueReleased s =
      (if s.modulate_toggle then ((make_img decode s).state, true) else (s, false)) :=
  ⟨rfl, rfl, rfl, rfl, rfl, rfl, rfl, rfl, rfl, rfl, rfl, rfl, rfl, rfl, rfl, rfl⟩

/-- A concrete state with the levels toggle off. -/
def easel9 : Easel := { easelW with level_toggle := false }

/-- C9 counterexample: with the levels toggle off, releasing the black
level slider does not trigger a render (the render flag is `false` and
the state is unchanged), refuting "for every slider, a value-released
event triggers a full render". -/
theorem slider_release_no_render_cex :
    easel9.level_toggle = false ∧
    update decodeW dlgW .sliderLevelBlackReleased easel9 = (easel9, false) := by decide

/-- C4: with a degenerate black/white pair (equal percentages) the levels
remap is deterministic and fully defined: each output channel equals 255
when the input channel is at least the black point `bp/100*255` and 0
otherwise, so every output channel of any levelled image is either 0 or
255 (no division by zero, nothing undefined). -/
theorem degenerate_levels_binary (bp v : ℚ) (img : List (List ℚ)) :
    level_channel bp bp v = (if bp / 100 * 255 ≤ v then 255 else 0) ∧
    ∀ px ∈ apply_levels bp bp img, ∀ c ∈ px, c = 0 ∨ c = 255 := by
  constructor
  · simp [level_channel]
  · intro px hpx c hc
    simp only [apply_levels, List.mem_map] at hpx
    obtain ⟨row, hrow, rfl⟩ := hpx
    simp only [List.mem_map] at hc
    obtain ⟨u, hu, rfl⟩ := hc
    by_cases h : bp / 100 * 255 ≤ u
    · right; simp [level_channel, h]
    · left; simp [level_channel, h]

theorem degenerate_levels_binary_witness :
    level_channel 50 50 10 = (if (50 : ℚ) / 100 * 255 ≤ 10 then 255 else 0) ∧
    (level_channel 50 50 10 = 0 ∨ level_channel 50 50 10 = 255) := by
  have h := degenerate_levels_binary 50 10 [[10]]
  refine ⟨h.1, h.2 [level_channel 50 50 10] ?_ (level_channel 50 50 10) ?_⟩
  · simp [apply_levels]
  · simp

/-- Helper: the iteration count of `km_loop` never exceeds the fuel. -/
theorem km_loop_count_le (step : List Color → List Color) (tol_sq : ℚ) :
    ∀ (fuel : Nat) (cs : List Color), (km_loop step tol_sq fuel cs).2 ≤ fuel := by
  intro fuel
  induction fuel with
  | zero => intro cs; simp [km_loop]
  | succ n ih =>
    intro cs
    simp only [km_loop]
    split
    · simp
    · simpa using Nat.succ_le_succ (ih (step cs))

/-- Helper: `km_loop` returns the `count`-fold iterate of the step. -/
theorem km_loop_iterate (step : List Color → List Color) (tol_sq : ℚ) :
    ∀ (fuel : Nat) (cs : List Color),
      (km_loop step tol_sq fuel cs).1 = step^[(km_loop step tol_sq fuel cs).2] cs := by
  intro fuel
  induction fuel with
  | zero => intro cs; simp [km_loop]
  | succ n ih =>
    intro cs
    simp only [km_loop]
    split
    · simp
    · simpa [Function.iterate_succ_apply] using ih (step cs)

/-- Helper: when `km_loop` stops before exhausting its fuel, the last
iteration's movement was below the tolerance. -/
theorem km_loop_early (step : List Color → List Color) (tol_sq : ℚ) :
    ∀ (fuel : Nat) (cs : List Color),
      (km_loop step tol_sq fuel cs).2 < fuel →
      0 < (km_loop step tol_sq fuel cs).2 ∧
      max_move_sq (step^[(km_loop step tol_sq fuel cs).2 - 1] cs)
        (step^[(km_loop step tol_sq fuel cs).2] cs) < tol_sq := by
  intro fuel
  induction fuel with
  | zero => intro cs h; simp [km_loop] at h
  | succ n ih =>
    intro cs h
    by_cases hconv : max_move_sq cs (step cs) < tol_sq
    · simp only [km_loop, if_pos hconv]
      simpa using hconv
    · simp only [km_loop, if_neg hconv] at h ⊢
      obtain ⟨hr, hm⟩ := ih (step cs) (by omega)
      refine ⟨by omega, ?_⟩
      have h1 : (km_loop step tol_sq n (step cs)).2 - 1 + 1
          = (km_loop step tol_sq n (step cs)).2 := by omega
      have h2 : step^[(km_loop step tol_sq n (step cs)).2 + 1] cs
          = step^[(km_loop step tol_sq n (step cs)).2] (step cs) :=
        Function.iterate_succ_apply step _ cs
      have h3 := Function.iterate_succ_apply step
        ((km_loop step tol_sq n (step cs)).2 - 1) cs
      rw [Nat.succ_eq_add_one, h1] at h3
      simpa [Nat.add_sub_cancel, h2, h3] using hm

/-- Helper: before the stopping iteration, every iteration's movement
was at or above the tolerance (the loop stops at the first convergent
iteration). -/
theorem km_loop_first (step : List Color → List Color) (tol_sq : ℚ) :
    ∀ (fuel : Nat) (cs : List Color) (j : Nat),
      j + 1 < (km_loop step tol_sq fuel cs).2 →
      ¬ max_move_sq (step^[j] cs) (step^[j + 1] cs) < tol_sq := by
  intro fuel
  induction fuel with
  | zero => intro cs j h; simp [km_loop] at h
  | succ n ih =>
    intro cs j h
    by_cases hconv : max_move_sq cs (step cs) < tol_sq
    · simp only [km_loop, if_pos hconv] at h; omega
    · simp only [km_loop, if_neg hconv] at h
      cases j with
      | zero => simpa using hconv
      | succ m =>
        have e1 : step^[m + 1] cs = step^[m] (step cs) :=
          Function.iterate_succ_apply step m cs
        have e2 : step^[m + 1 + 1] cs = step^[m + 1] (step cs) :=
          Function.iterate_succ_apply step (m + 1) cs
        rw [e1, e2]
        exact ih (step cs) m (by omega)

/-- C8: the k-means iteration always terminates: it performs at most the
iteration cap of 100 iterations; the result is the corresponding iterate
of the step function; when it stops before the cap it is because the
maximum squared centroid movement of the last iteration fell below the
squared convergence tolerance (1/100)^2 — that is, movement below 0.01
on the normalized 0-1 scale; and it stops at the first such iteration
(every earlier iteration moved at least the tolerance), so the loop ends
at the convergence test or the cap, whichever comes first. -/
theorem kmeans_terminates (ps : List Color) (k : Nat) :
    kmeans_iters ps k ≤ 100 ∧
    kmeans_centroids ps k = (km_step ps)^[kmeans_iters ps k] (kmeans_init k ps) ∧
    (kmeans_iters ps k < 100 →
      0 < kmeans_iters ps k ∧
      max_move_sq ((km_step ps)^[kmeans_iters ps k - 1] (kmeans_init k ps))
        ((km_step ps)^[kmeans_iters ps k] (kmeans_init k ps)) < (1 / 100) ^ 2) ∧
    (∀ j, j + 1 < kmeans_iters ps k →
      ¬ max_move_sq ((km_step ps)^[j] (kmeans_init k ps))
          ((km_step ps)^[j + 1] (kmeans_init k ps)) < (1 / 100) ^ 2) :=
  ⟨km_loop_count_le _ _ _ _, km_loop_iterate _ _ _ _,
    km_loop_early _ _ _ _, km_loop_first _ _ _ _⟩

/-- A one-pixel image used to exercise the k-means loop concretely. -/
def psW : List Color := [(0, 0, 0)]

/-- Helper: a loop with fuel left stops after one iteration as soon as
the movement is below the tolerance. -/
theorem km_loop_converged (step : List Color → List Color) (tol_sq : ℚ) (n : Nat)
    (cs : List Color) (h : max_move_sq cs (step cs) < tol_sq) :
    km_loop step tol_sq (n + 1) cs = (step cs, 1) := by
  simp [km_loop, h]

/-- Helper: initial centroids for the one-pixel image. -/
theorem psW_init : kmeans_init 1 psW = [(0, 0, 0)] := by
  norm_num [kmeans_init, psW]

/-- Helper: the k-means step fixes the one-pixel image's centroid. -/
theorem psW_step : km_step psW [(0, 0, 0)] = [(0, 0, 0)] := by
  norm_num [km_step, psW, List.range_succ, List.range_zero, nearest_idx,
    mean_color, add_color, smul_color, List.filter]

/-- Helper: on the one-pixel image, k-means converges after exactly one
iteration. -/
theorem psW_iters : kmeans_iters psW 1 = 1 := by
  have hconv : max_move_sq [((0 : ℚ), (0 : ℚ), (0 : ℚ))] (km_step psW [(0, 0, 0)])
      < (1 / 100) ^ 2 := by
    rw [psW_step]
    norm_num [max_move_sq, sq_dist]
  unfold kmeans_iters kmeans_run
  rw [psW_init, show (100 : Nat) = 99 + 1 from rfl,
    km_loop_converged _ _ _ _ hconv]

theorem kmeans_terminates_witness :
    kmeans_iters psW 1 ≤ 100 ∧ 0 < kmeans_iters psW 1 ∧
    max_move_sq ((km_step psW)^[kmeans_iters psW 1 - 1] (kmeans_init 1 psW))
      ((km_step psW)^[kmeans_iters psW 1] (kmeans_init 1 psW)) < (1 / 100) ^ 2 := by
  have h := kmeans_terminates psW 1
  have hlt : kmeans_iters psW 1 < 100 := by rw [psW_iters]; omega
  exact ⟨h.1, (h.2.2.1 hlt).1, (h.2.2.1 hlt).2⟩

end Quixel
